import Mathlib

/-!
Shallow embedding of the Wikipedia research pipeline
(`src/agents/nodes.py`, `src/agents/workflow.py`, `src/utils/helpers.py`).

Text is modelled as `List Char` (Python strings are sequences of code
points).  The three external providers (article search, article fetch,
text generation) are oracle functions; Python exceptions raised by a
provider are modelled as outcome constructors.  Each pipeline stage is a
total function from the shared `ResearchState` to an updated state
together with the list of provider calls it issued, so that claims about
"no external call is made" are statable.
-/

namespace WikiResearch

/-- Python text, modelled as a list of code points. -/
abbrev Str := List Char

/-- Coerce a Lean string literal into the `Str` model. -/
def str (s : String) : Str := s.data

/-- Outcome of `wikipedia.search(term, results=limit)`: a normal return,
a `DisambiguationError` carrying alternative titles, or any other
exception carrying its message. -/
inductive SearchOutcome where
  | ok (results : List Str)
  | disambiguation (options : List Str)
  | err (msg : Str)
deriving Repr, DecidableEq

/-- The data a successful `wikipedia.page(title)` call exposes:
`page.content`, `page.url`, `page.summary`. -/
structure Page where
  content : Str
  url : Str
  summary : Str
deriving Repr, DecidableEq

/-- Outcome of `wikipedia.page(title)`: success, a `DisambiguationError`
carrying alternatives, a `PageError`, or any other exception. -/
inductive FetchOutcome where
  | ok (page : Page)
  | disambiguation (options : List Str)
  | pageError
  | err (msg : Str)
deriving Repr, DecidableEq

/-- The three black-box external providers of the pipeline. `generate`
returns either the model text or, via `Except.error`, the message of the
exception the API call raised. -/
structure Providers where
  search : Str → Nat → SearchOutcome
  fetch : Str → FetchOutcome
  generate : Str → Except Str Str

/-- One external provider call, recorded in the trace a stage returns. -/
inductive ProviderCall where
  | searchCall (term : Str) (limit : Nat)
  | fetchCall (title : Str)
  | generateCall (prompt : Str)
deriving Repr, DecidableEq

/-- A retrieved document as built by `WikipediaSummaryNode.__call__`. -/
structure Document where
  title : Str
  content : Str
  url : Str
  summary : Str
deriving Repr, DecidableEq

/-- A source citation entry `{title, url, summary}` as built by
`GPTSummarizerNode.__call__`. -/
structure Source where
  title : Str
  url : Str
  summary : Str
deriving Repr, DecidableEq

/-- The `ResearchState` TypedDict of `src/agents/workflow.py`. -/
structure ResearchState where
  query : Str
  search_results : List Str
  documents : List Document
  answer : Str
  sources : List Source
  error : Str
deriving Repr, DecidableEq

/-- The initial state built by `WikipediaResearchWorkflow.research`. -/
def initialState (query : Str) : ResearchState :=
  { query := query, search_results := [], documents := [], answer := [],
    sources := [], error := [] }

/-- Python `str.split()` with no argument: split on runs of whitespace,
discarding empty chunks. -/
def pySplit (s : Str) : List Str :=
  (s.splitOnP Char.isWhitespace).filter (fun t => t ≠ [])

/-- `query.split()[0] if query.split() else query` from
`WikipediaSearchNode.__call__`. -/
def simplifiedQuery (q : Str) : Str :=
  match pySplit q with
  | [] => q
  | t :: _ => t

/-- `WikipediaSearchNode.__call__` (src/agents/nodes.py).  The Python
`try` block covers both the initial search call and the zero-result
retry, so a `DisambiguationError` or other exception from either call is
handled by the same two `except` clauses. -/
def searchStage (P : Providers) (max_results : Nat) (s : ResearchState) :
    ResearchState × List ProviderCall :=
  if s.query = [] then
    ({ s with search_results := [], error := str "No query provided" }, [])
  else
    match P.search s.query max_results with
    | .ok results =>
      if results = [] then
        let simplified := simplifiedQuery s.query
        match P.search simplified max_results with
        | .ok results2 =>
          ({ s with search_results := results2 },
           [.searchCall s.query max_results, .searchCall simplified max_results])
        | .disambiguation options =>
          ({ s with search_results := options.take max_results },
           [.searchCall s.query max_results, .searchCall simplified max_results])
        | .err msg =>
          ({ s with search_results := [], error := msg },
           [.searchCall s.query max_results, .searchCall simplified max_results])
      else
        ({ s with search_results := results }, [.searchCall s.query max_results])
    | .disambiguation options =>
      ({ s with search_results := options.take max_results },
       [.searchCall s.query max_results])
    | .err msg =>
      ({ s with search_results := [], error := msg },
       [.searchCall s.query max_results])

/-- The truncation marker appended by `WikipediaSummaryNode.__call__`. -/
def truncationMarker : Str := str "... [Content truncated]"

/-- Document construction in `WikipediaSummaryNode.__call__`:
`content = page.content[:max_content_length]`, with the marker appended
when the full content was strictly longer, and
`page.summary[:500] if page.summary else ""`. -/
def mkDocument (title : Str) (page : Page) (max_content_length : Nat) : Document :=
  { title := title
    content :=
      if page.content.length > max_content_length then
        page.content.take max_content_length ++ truncationMarker
      else
        page.content.take max_content_length
    url := page.url
    summary := if page.summary ≠ [] then page.summary.take 500 else [] }

/-- The loop body of `WikipediaSummaryNode.__call__` for one candidate
title: success appends one document; a `DisambiguationError` retries the
first alternative under a bare `except:` (so an empty alternative list —
Python `IndexError` — or any failure of the retried fetch skips the
title); `PageError` and any other exception skip the title. -/
def fetchTitle (P : Providers) (max_content_length : Nat) (title : Str) :
    Option Document × List ProviderCall :=
  match P.fetch title with
  | .ok page => (some (mkDocument title page max_content_length), [.fetchCall title])
  | .disambiguation options =>
    match options with
    | [] => (none, [.fetchCall title])
    | alt :: _ =>
      match P.fetch alt with
      | .ok page =>
        (some (mkDocument alt page max_content_length), [.fetchCall title, .fetchCall alt])
      | _ => (none, [.fetchCall title, .fetchCall alt])
  | .pageError => (none, [.fetchCall title])
  | .err _ => (none, [.fetchCall title])

/-- `WikipediaSummaryNode.__call__` (src/agents/nodes.py): short-circuit
on empty `search_results`, otherwise process each title independently in
order, collecting the successfully built documents. -/
def fetchStage (P : Providers) (max_content_length : Nat) (s : ResearchState) :
    ResearchState × List ProviderCall :=
  if s.search_results = [] then
    ({ s with documents := [], error := str "No search results to process" }, [])
  else
    ({ s with documents :=
        s.search_results.filterMap (fun t => (fetchTitle P max_content_length t).1) },
     (s.search_results.map (fun t => (fetchTitle P max_content_length t).2)).flatten)

/-- The source projection `{title, url, summary}` built per document in
`GPTSummarizerNode.__call__`. -/
def docToSource (d : Document) : Source :=
  { title := d.title, url := d.url, summary := d.summary }

/-- One context part of the prompt: two asterisks, the document title,
two asterisks, a colon, a newline, then the document content (the
per-document f-string of `GPTSummarizerNode.__call__`). -/
def contextPart (d : Document) : Str :=
  str "**" ++ d.title ++ str "**:\n" ++ d.content

/-- `context = "\n\n".join(context_parts)`. -/
def buildContext (documents : List Document) : Str :=
  List.intercalate (str "\n\n") (documents.map contextPart)

/-- The fixed prompt text before the user question. -/
def promptHead : Str :=
  str "You are a knowledgeable Wikipedia research assistant. Answer the user\x27s question based ONLY on the provided Wikipedia content. \n\nGuidelines:\n- Provide a comprehensive but concise answer\n- Use information from multiple sources when relevant\n- If the information is insufficient, acknowledge the limitations\n- Structure your response clearly with proper formatting\n- Include specific details and examples when available\n\nUser Question: "

/-- The fixed prompt text between the question and the context. -/
def promptMid : Str := str "\n\nWikipedia Content:\n"

/-- The fixed prompt text after the context. -/
def promptTail : Str :=
  str "\n\nPlease provide a detailed answer based on the above information:"

/-- The full prompt f-string of `GPTSummarizerNode.__call__`. -/
def buildPrompt (query : Str) (documents : List Document) : Str :=
  promptHead ++ query ++ promptMid ++ buildContext documents ++ promptTail

/-- The fixed apology answer returned when `documents` is empty. -/
def apologyAnswer : Str :=
  str "I couldn\x27t find any relevant Wikipedia articles for your query. Please try rephrasing your question or using different keywords."

/-- The prefix of the answer returned when the generation call faults. -/
def generationFaultText : Str :=
  str "I encountered an error while processing your request: "

/-- `GPTSummarizerNode.__call__` (src/agents/nodes.py). -/
def gptStage (P : Providers) (s : ResearchState) :
    ResearchState × List ProviderCall :=
  if s.query = [] then
    ({ s with answer := str "No query provided", sources := [] }, [])
  else if s.documents = [] then
    ({ s with answer := apologyAnswer, sources := [] }, [])
  else
    let sources := s.documents.map docToSource
    let prompt := buildPrompt s.query s.documents
    match P.generate prompt with
    | .ok answer =>
      ({ s with answer := answer, sources := sources }, [.generateCall prompt])
    | .error msg =>
      ({ s with answer := generationFaultText ++ msg, sources := sources },
       [.generateCall prompt])

/-- `WikipediaResearchWorkflow.research`: build the initial state and run
the fixed three-node path search → summarize → generate_answer, the keys
returned by each node merged into the shared state.  The stages are total
functions here, so the outer exception handler of the driver is
unreachable in the model. -/
def research (P : Providers) (max_results max_content_length : Nat) (query : Str) :
    ResearchState × List ProviderCall :=
  let s0 := initialState query
  let r1 := searchStage P max_results s0
  let r2 := fetchStage P max_content_length r1.1
  let r3 := gptStage P r2.1
  (r3.1, r1.2 ++ r2.2 ++ r3.2)

/-- A history entry `{query, result, timestamp}` (src/utils/helpers.py). -/
structure HistoryEntry where
  query : Str
  result : ResearchState
  timestamp : Str
deriving Repr, DecidableEq

/-- `add_to_history` (src/utils/helpers.py): append the new entry, then
keep only the last 10 entries (Python `history[-10:]`) when the length
exceeds 10. -/
def add_to_history (history : List HistoryEntry) (query : Str)
    (result : ResearchState) (timestamp : Str) : List HistoryEntry :=
  let h := history ++ [{ query := query, result := result, timestamp := timestamp }]
  if h.length > 10 then h.drop (h.length - 10) else h

/-- Sequential history additions starting from the empty session history. -/
def addEntries (es : List HistoryEntry) : List HistoryEntry :=
  es.foldl (fun h e => add_to_history h e.query e.result e.timestamp) []


/-! Concrete providers and values, used by witnesses and counterexamples. -/

/-- A page with three characters of content. -/
def pageABC : Page := { content := str "abc", url := str "u", summary := str "s" }

/-- A provider whose fetch always succeeds with `pageABC` and whose
generation call always faults with message "boom". -/
def Pfix : Providers :=
  { search := fun _ _ => .ok []
    fetch := fun _ => .ok pageABC
    generate := fun _ => .error (str "boom") }

/-- A provider raising a disambiguation fault for title "D" only. -/
def Pdis : Providers :=
  { search := fun _ _ => .ok []
    fetch := fun t => if t = str "D" then .disambiguation [str "A1", str "A2"] else .ok pageABC
    generate := fun _ => .error (str "boom") }

/-- A provider whose search always returns zero results. -/
def Pzero : Providers :=
  { search := fun _ _ => .ok []
    fetch := fun _ => .pageError
    generate := fun _ => .error (str "boom") }

/-- A document and a state holding it, for synthesis-stage witnesses. -/
def docT : Document :=
  { title := str "T", content := str "c", url := str "u", summary := str "s" }

/-- A state with a non-empty query and one retrieved document. -/
def stateDocs : ResearchState :=
  { query := str "q", search_results := [str "T"], documents := [docT],
    answer := [], sources := [], error := [] }

/-! Claim theorems. -/

/-- Claim C2: for every fetched page strictly longer than
`max_content_length`, the stored body is the first `max_content_length`
characters followed by the truncation marker; a page at or under the
limit is stored verbatim. -/
theorem body_truncation (P : Providers) (max_content_length : Nat) (title : Str)
    (page : Page) (h : P.fetch title = .ok page) :
    (page.content.length > max_content_length →
      ∃ d, (fetchTitle P max_content_length title).1 = some d ∧
        d.content = page.content.take max_content_length ++ truncationMarker) ∧
    (page.content.length ≤ max_content_length →
      ∃ d, (fetchTitle P max_content_length title).1 = some d ∧
        d.content = page.content) := by
  constructor
  · intro hlen
    refine ⟨mkDocument title page max_content_length, by simp [fetchTitle, h], ?_⟩
    simp [mkDocument, hlen]
  · intro hlen
    refine ⟨mkDocument title page max_content_length, by simp [fetchTitle, h], ?_⟩
    have hnot : ¬ page.content.length > max_content_length := by omega
    simp [mkDocument, hnot, List.take_of_length_le hlen]

/-- Witness for C2 at a concrete input: content "abc" with limit 2 is
stored truncated with the marker. -/
theorem body_truncation_witness :
    ∃ d, (fetchTitle Pfix 2 (str "T")).1 = some d ∧
      d.content = pageABC.content.take 2 ++ truncationMarker :=
  (body_truncation Pfix 2 (str "T") pageABC rfl).1 (by decide)

/-- Claim C4: with a non-empty query and an empty documents list, the
synthesis stage returns the fixed apology answer with empty sources and
issues no generation call. -/
theorem synthesis_empty_documents (P : Providers) (s : ResearchState)
    (hq : s.query ≠ []) (hd : s.documents = []) :
    (gptStage P s).1.answer = apologyAnswer ∧
    (gptStage P s).1.sources = [] ∧ (gptStage P s).2 = [] := by
  simp [gptStage, hq, hd]

/-- Witness for C4 at a concrete input. -/
theorem synthesis_empty_documents_witness :
    (gptStage Pfix (initialState (str "q"))).1.answer = apologyAnswer ∧
    (gptStage Pfix (initialState (str "q"))).1.sources = [] ∧
    (gptStage Pfix (initialState (str "q"))).2 = [] :=
  synthesis_empty_documents Pfix (initialState (str "q")) (by decide) rfl

/-- Claim C5: with a non-empty query and non-empty documents, a faulting
generation call yields the fixed error text followed by the fault
message, with the sources list still built from the input documents. -/
theorem synthesis_generation_fault (P : Providers) (s : ResearchState) (msg : Str)
    (hq : s.query ≠ []) (hd : s.documents ≠ [])
    (hgen : P.generate (buildPrompt s.query s.documents) = .error msg) :
    (gptStage P s).1.answer = generationFaultText ++ msg ∧
    (gptStage P s).1.sources = s.documents.map docToSource ∧
    (gptStage P s).1.query = s.query := by
  simp [gptStage, hq, hd, hgen]

/-- Witness for C5 at a concrete input. -/
theorem synthesis_generation_fault_witness :
    (gptStage Pfix stateDocs).1.answer = generationFaultText ++ str "boom" ∧
    (gptStage Pfix stateDocs).1.sources = stateDocs.documents.map docToSource ∧
    (gptStage Pfix stateDocs).1.query = stateDocs.query :=
  synthesis_generation_fault Pfix stateDocs (str "boom") (by decide) (by decide) rfl

/-- Claim C10: on a disambiguation fault whose first alternative fetches
successfully, the resulting document carries the alternative as its
title; if fetching the alternative fails in any way, the original title
contributes no document. -/
theorem disambiguation_fallback (P : Providers) (max_content_length : Nat)
    (title alt : Str) (rest : List Str)
    (h : P.fetch title = .disambiguation (alt :: rest)) :
    (∀ page, P.fetch alt = .ok page →
      ∃ d, (fetchTitle P max_content_length title).1 = some d ∧ d.title = alt) ∧
    ((∀ page, P.fetch alt ≠ .ok page) →
      (fetchTitle P max_content_length title).1 = none) := by
  constructor
  · intro page hp
    exact ⟨mkDocument alt page max_content_length, by simp [fetchTitle, h, hp], rfl⟩
  · intro hp
    cases hfa : P.fetch alt with
    | ok page => exact absurd hfa (hp page)
    | disambiguation o => simp [fetchTitle, h, hfa]
    | pageError => simp [fetchTitle, h, hfa]
    | err m => simp [fetchTitle, h, hfa]

/-- Witness for C10 at a concrete input: title "D" disambiguates to
"A1", which fetches successfully. -/
theorem disambiguation_fallback_witness :
    ∃ d, (fetchTitle Pdis 3000 (str "D")).1 = some d ∧ d.title = str "A1" :=
  (disambiguation_fallback Pdis 3000 (str "D") (str "A1") [str "A2"] (by decide)).1
    pageABC (by decide)

/-- Claim C7: on a non-empty query for which the first search call
returns zero results, the stage makes exactly one retry call with the
first whitespace-delimited token of the query, returns the results of
the retry, and leaves the error field unchanged even when the retry is
also empty. -/
theorem search_zero_result_retry (P : Providers) (max_results : Nat)
    (s : ResearchState) (tok : Str) (toks : List Str) (retried : List Str)
    (hq : s.query ≠ [])
    (h1 : P.search s.query max_results = .ok [])
    (htok : pySplit s.query = tok :: toks)
    (h2 : P.search tok max_results = .ok retried) :
    (searchStage P max_results s).2 =
      [.searchCall s.query max_results, .searchCall tok max_results] ∧
    (searchStage P max_results s).1.search_results = retried ∧
    (searchStage P max_results s).1.error = s.error := by
  have hs : simplifiedQuery s.query = tok := by simp [simplifiedQuery, htok]
  simp [searchStage, hq, h1, hs, h2]

/-- Witness for C7 at a concrete input: query "ab cd", both search calls
return zero results; the retry uses the token "ab". -/
theorem search_zero_result_retry_witness :
    (searchStage Pzero 3 (initialState (str "ab cd"))).2 =
      [.searchCall (str "ab cd") 3, .searchCall (str "ab") 3] ∧
    (searchStage Pzero 3 (initialState (str "ab cd"))).1.search_results = [] ∧
    (searchStage Pzero 3 (initialState (str "ab cd"))).1.error =
      (initialState (str "ab cd")).error :=
  search_zero_result_retry Pzero 3 (initialState (str "ab cd")) (str "ab") [str "cd"] []
    (by decide) rfl (by decide) rfl

/-! Helper lemmas about the individual stages, shared by the
pipeline-level theorems. -/

/-- Every branch of the search stage yields at most `max_results`
titles, given the provider contract that a search call returns at most
the requested number of results. -/
theorem searchStage_results_le (P : Providers) (max_results : Nat) (s : ResearchState)
    (Hcap : ∀ t r, P.search t max_results = .ok r → r.length ≤ max_results) :
    ((searchStage P max_results s).1).search_results.length ≤ max_results := by
  by_cases hq : s.query = []
  · simp [searchStage, hq]
  · cases h1 : P.search s.query max_results with
    | ok results =>
      by_cases he : results = []
      · cases h2 : P.search (simplifiedQuery s.query) max_results with
        | ok r2 => simpa [searchStage, hq, h1, he, h2] using Hcap _ _ h2
        | disambiguation o => simp [searchStage, hq, h1, he, h2]
        | err m => simp [searchStage, hq, h1, he, h2]
      · simpa [searchStage, hq, h1, he] using Hcap _ _ h1
    | disambiguation o => simp [searchStage, hq, h1]
    | err m => simp [searchStage, hq, h1]

/-- The fetch stage keeps `search_results` and `query` unchanged and
produces at most one document per input title. -/
theorem fetchStage_preserves (P : Providers) (max_content_length : Nat)
    (s : ResearchState) :
    ((fetchStage P max_content_length s).1).search_results = s.search_results ∧
    ((fetchStage P max_content_length s).1).query = s.query ∧
    ((fetchStage P max_content_length s).1).documents.length ≤
      s.search_results.length := by
  by_cases h : s.search_results = []
  · simp [fetchStage, h]
  · refine ⟨by simp [fetchStage, h], by simp [fetchStage, h], ?_⟩
    simpa [fetchStage, h] using
      List.length_filterMap_le (fun t => (fetchTitle P max_content_length t).1)
        s.search_results

/-- The synthesis stage keeps `search_results` and `documents`
unchanged. -/
theorem gptStage_preserves (P : Providers) (s : ResearchState) :
    ((gptStage P s).1).search_results = s.search_results ∧
    ((gptStage P s).1).documents = s.documents := by
  by_cases hq : s.query = []
  · simp [gptStage, hq]
  · by_cases hd : s.documents = []
    · simp [gptStage, hq, hd]
    · cases hg : P.generate (buildPrompt s.query s.documents) <;>
        simp [gptStage, hq, hd, hg]

/-- Claim C1: in the terminal state of every run, the number of
documents is at most the number of search results, which is at most
`max_results`, given the provider contract that a search call returns at
most the requested number of results. -/
theorem pipeline_count_invariant (P : Providers)
    (max_results max_content_length : Nat) (query : Str)
    (Hcap : ∀ t n r, P.search t n = .ok r → r.length ≤ n) :
    (research P max_results max_content_length query).1.documents.length ≤
      (research P max_results max_content_length query).1.search_results.length ∧
    (research P max_results max_content_length query).1.search_results.length ≤
      max_results := by
  have h1 := searchStage_results_le P max_results (initialState query)
    (fun t r hr => Hcap t max_results r hr)
  have h2 := fetchStage_preserves P max_content_length
    (searchStage P max_results (initialState query)).1
  have h3 := gptStage_preserves P
    (fetchStage P max_content_length (searchStage P max_results (initialState query)).1).1
  simp only [research]
  constructor
  · rw [h3.1, h3.2, h2.1]
    exact h2.2.2
  · rw [h3.1, h2.1]
    exact h1

/-- Witness for C1 at a concrete input. -/
theorem pipeline_count_invariant_witness :
    (research Pzero 3 3000 (str "q")).1.documents.length ≤
      (research Pzero 3 3000 (str "q")).1.search_results.length ∧
    (research Pzero 3 3000 (str "q")).1.search_results.length ≤ 3 :=
  pipeline_count_invariant Pzero 3 3000 (str "q")
    (fun t n r h => by
      simp only [Pzero, SearchOutcome.ok.injEq] at h
      simp [← h])

/-- The sources returned by the synthesis stage on a non-empty query and
non-empty documents are the projection of the documents, whether the
generation call succeeds or faults. -/
theorem gptStage_sources (P : Providers) (s : ResearchState)
    (hq : s.query ≠ []) (hd : s.documents ≠ []) :
    ((gptStage P s).1).sources = s.documents.map docToSource := by
  cases hg : P.generate (buildPrompt s.query s.documents) <;>
    simp [gptStage, hq, hd, hg]

/-- Claim C8: the sources list has exactly one entry per document,
projected from it and in the same order, and the fetch stage emits the
documents in the encounter order of the successfully fetched titles. -/
theorem sources_from_documents (P : Providers) (max_content_length : Nat)
    (s : ResearchState) (hq : s.query ≠ [])
    (hd : ((fetchStage P max_content_length s).1).documents ≠ []) :
    ((gptStage P (fetchStage P max_content_length s).1).1).sources =
      ((fetchStage P max_content_length s).1).documents.map docToSource ∧
    ((fetchStage P max_content_length s).1).documents =
      s.search_results.filterMap (fun t => (fetchTitle P max_content_length t).1) := by
  refine ⟨gptStage_sources P _ ?_ hd, ?_⟩
  · rw [(fetchStage_preserves P max_content_length s).2.1]
    exact hq
  · by_cases h : s.search_results = []
    · simp [fetchStage, h]
    · simp [fetchStage, h]

/-- A provider whose fetch always succeeds and whose generation call
returns the empty text. -/
def Pecho : Providers :=
  { search := fun _ _ => .ok [str "T"]
    fetch := fun _ => .ok pageABC
    generate := fun _ => .ok [] }

/-- A state with a non-empty query and one candidate title. -/
def stateTitle : ResearchState :=
  { query := str "q", search_results := [str "T"], documents := [],
    answer := [], sources := [], error := [] }

/-- Witness for C8 at a concrete input. -/
theorem sources_from_documents_witness :
    ((gptStage Pecho (fetchStage Pecho 3000 stateTitle).1).1).sources =
      ((fetchStage Pecho 3000 stateTitle).1).documents.map docToSource ∧
    ((fetchStage Pecho 3000 stateTitle).1).documents =
      stateTitle.search_results.filterMap (fun t => (fetchTitle Pecho 3000 t).1) :=
  sources_from_documents Pecho 3000 stateTitle (by decide) (by decide)

/-- The answer set by the synthesis stage is non-empty whenever every
text the generation provider returns is non-empty. -/
theorem gptStage_answer_nonempty (P : Providers) (s : ResearchState)
    (Hgen : ∀ p r, P.generate p = .ok r → r ≠ []) :
    ((gptStage P s).1).answer ≠ [] := by
  by_cases hq : s.query = []
  · have h : ((gptStage P s).1).answer = str "No query provided" := by
      simp [gptStage, hq]
    rw [h]; decide
  · by_cases hd : s.documents = []
    · have h : ((gptStage P s).1).answer = apologyAnswer := by
        simp [gptStage, hq, hd]
      rw [h]; decide
    · cases hg : P.generate (buildPrompt s.query s.documents) with
      | ok r => simpa [gptStage, hq, hd, hg] using Hgen _ _ hg
      | error m =>
        have h : ((gptStage P s).1).answer = generationFaultText ++ m := by
          simp [gptStage, hq, hd, hg]
        rw [h]
        intro hx
        exact absurd (List.append_eq_nil.mp hx).1 (by decide)

/-- Claim C6, amended: the terminal answer of every run is non-empty
provided every text the generation provider returns is non-empty (the
code passes a generated answer through unmodified, so a provider
returning the empty text yields an empty answer). -/
theorem answer_nonempty (P : Providers) (max_results max_content_length : Nat)
    (query : Str)
    (Hgen : ∀ p r, P.generate p = .ok r → r ≠ []) :
    (research P max_results max_content_length query).1.answer ≠ [] := by
  simp only [research]
  exact gptStage_answer_nonempty P _ Hgen

/-- Witness for the amended C6 at a concrete input. -/
theorem answer_nonempty_witness :
    (research Pfix 3 3000 (str "q")).1.answer ≠ [] :=
  answer_nonempty Pfix 3 3000 (str "q") (fun p r h => by simp [Pfix] at h)

/-- Counterexample to C6 as stated: with a generation provider that
returns the empty text, the terminal answer of the run is the empty
string. -/
theorem generated_answer_empty :
    (research Pecho 3 3000 (str "q")).1.answer = [] := by decide

/-- Claim C3, amended: an empty query yields a terminal state carrying
an error and a fixed answer, with no external provider call made at any
stage. -/
theorem empty_query_no_calls (P : Providers) (max_results max_content_length : Nat) :
    (research P max_results max_content_length []).2 = [] ∧
    (research P max_results max_content_length []).1.answer = str "No query provided" ∧
    (research P max_results max_content_length []).1.error ≠ [] := by
  refine ⟨rfl, rfl, ?_⟩
  have h : (research P max_results max_content_length []).1.error =
      str "No search results to process" := rfl
  rw [h]; decide

/-- Counterexample to C3 as stated: a whitespace-only query is truthy in
Python, so the search stage does call the search provider on it. -/
theorem whitespace_query_calls_provider :
    (research Pzero 3 3000 (str " ")).2 ≠ [] := by decide

/-! History retention (src/utils/helpers.py). -/

/-- Keeping the last ten of a suffix-trimmed list prefixed to more
entries equals keeping the last ten of the untrimmed whole. -/
theorem drop_sub_append {α : Type} (n : Nat) (xs ys : List α) :
    (xs.drop (xs.length - n) ++ ys).drop
        ((xs.drop (xs.length - n) ++ ys).length - n) =
      (xs ++ ys).drop ((xs ++ ys).length - n) := by
  have e1 : xs.length - n + ((xs.drop (xs.length - n) ++ ys).length - n)
      = (xs ++ ys).length - n := by
    simp only [List.length_append, List.length_drop]
    omega
  have e2 : (xs.drop (xs.length - n) ++ ys).length - n
        - (xs.drop (xs.length - n)).length
      = (xs ++ ys).length - n - xs.length := by
    simp only [List.length_append, List.length_drop]
    omega
  rw [List.drop_append_eq_append_drop, List.drop_append_eq_append_drop,
    List.drop_drop, e1, e2]

/-- The history entry `add_to_history` appends. -/
def mkEntry (q : Str) (r : ResearchState) (ts : Str) : HistoryEntry :=
  { query := q, result := r, timestamp := ts }

/-- `add_to_history` always keeps exactly the last ten entries of the
appended list. -/
theorem add_to_history_eq (history : List HistoryEntry) (q : Str)
    (r : ResearchState) (ts : Str) :
    add_to_history history q r ts =
      (history ++ [mkEntry q r ts]).drop
        ((history ++ [mkEntry q r ts]).length - 10) := by
  simp only [add_to_history, mkEntry]
  split
  · rfl
  · rename_i hlen
    have h0 : (history ++
        [({ query := q, result := r, timestamp := ts } : HistoryEntry)]).length - 10
        = 0 := by
      simp only [List.length_append, List.length_cons, List.length_nil] at hlen ⊢
      omega
    rw [h0, List.drop_zero]

/-- Folding history additions from a short history keeps exactly the
last ten entries of everything seen, in arrival order. -/
theorem addEntries_foldl (es : List HistoryEntry) :
    ∀ h : List HistoryEntry, h.length ≤ 10 →
      es.foldl (fun acc e => add_to_history acc e.query e.result e.timestamp) h =
        (h ++ es).drop ((h ++ es).length - 10) := by
  induction es with
  | nil =>
    intro h hh
    have h0 : (h ++ ([] : List HistoryEntry)).length - 10 = 0 := by
      simp only [List.append_nil]
      omega
    rw [h0, List.drop_zero, List.append_nil]
    simp
  | cons e tl ih =>
    intro h hh
    rw [List.foldl_cons]
    have hme : mkEntry e.query e.result e.timestamp = e := rfl
    have hadd : add_to_history h e.query e.result e.timestamp =
        (h ++ [e]).drop ((h ++ [e]).length - 10) := by
      rw [add_to_history_eq, hme]
    have hlen : (add_to_history h e.query e.result e.timestamp).length ≤ 10 := by
      rw [hadd]
      simp only [List.length_drop, List.length_append, List.length_cons, List.length_nil]
      omega
    rw [ih _ hlen, hadd, drop_sub_append 10 (h ++ [e]) tl]
    simp

/-- Claim C9: sequential history additions keep exactly the most recent
ten entries in arrival order; in particular, after twelve additions the
retained history is the last ten of the twelve, of length exactly ten,
and the history never exceeds ten entries. -/
theorem history_retention (es : List HistoryEntry) :
    addEntries es = es.drop (es.length - 10) ∧
    (addEntries es).length ≤ 10 ∧
    (es.length = 12 → addEntries es = es.drop 2 ∧ (addEntries es).length = 10) := by
  have h := addEntries_foldl es [] (by simp)
  simp only [List.nil_append] at h
  rw [addEntries]
  refine ⟨h, ?_, ?_⟩
  · rw [h]
    simp only [List.length_drop]
    omega
  · intro h12
    rw [h, h12]
    constructor
    · rfl
    · simp only [List.length_drop, h12]

/-- A fixed history entry for the C9 witness. -/
def entry0 : HistoryEntry :=
  { query := [], result := initialState [], timestamp := [] }

/-- Witness for C9 at a concrete input: twelve identical additions
retain exactly the last ten entries. -/
theorem history_retention_witness :
    addEntries (List.replicate 12 entry0) = (List.replicate 12 entry0).drop 2 ∧
    (addEntries (List.replicate 12 entry0)).length = 10 :=
  (history_retention (List.replicate 12 entry0)).2.2 (by simp)

end WikiResearch
